import Mathlib

/-!
Verification development for the AI request dispatch core.

Shallow embedding of:
- src/agents/rate_limiter.py   (RateLimitedQueue)
- src/agents/runner.py         (AIServiceManager)
- src/agents/database.py       (get_user_conversations)
- src/agents/agents_backend.py (UserHistoryManager, run_agent, run_agent_stream)

Machine floats of the source are modelled as Rat for the monotonic clock and as
Lean Float literals for embedding vectors (which are only ever constructed,
never computed with). Python exceptions are modelled with Except; asyncio
futures resolve exactly once, so a queued entry is pending until the queue
resolves it.
-/

/-! ## RateLimitedQueue (src/agents/rate_limiter.py) -/

/-- One entry of the rate limiter queue (class QueuedRequest). The
asyncio `result_future` is represented implicitly: an entry in the queue is
pending, and it is resolved by the pop that removes it. -/
structure QueuedRequest where
  request_id : String
  system_prompt : String
  user_message : String
  enqueue_time : Int
  timeout_time : Int
deriving Repr, DecidableEq

/-- The `self.stats` dictionary of RateLimitedQueue. -/
structure QueueStats where
  total_enqueued : Nat
  total_processed : Nat
  total_rejected : Nat
  total_timeout : Nat
  current_queue_size : Nat
  max_queue_size_reached : Nat
deriving Repr, DecidableEq

/-- State of a RateLimitedQueue: configuration, FIFO deque, stats, run flag. -/
structure RateLimitedQueue where
  rpm : Nat
  max_queue_size : Nat
  timeout_seconds : Nat
  release_interval : Rat
  request_queue : List QueuedRequest
  stats : QueueStats
  is_running : Bool
deriving Repr, DecidableEq

/-- RateLimitedQueue.__init__ : release_interval = 60.0 / rpm, empty queue,
zeroed stats, processor not running. -/
def RateLimitedQueue.init (rpm max_queue_size timeout_seconds : Nat) : RateLimitedQueue :=
  { rpm := rpm
    max_queue_size := max_queue_size
    timeout_seconds := timeout_seconds
    release_interval := 60 / (rpm : Rat)
    request_queue := []
    stats := ⟨0, 0, 0, 0, 0, 0⟩
    is_running := false }

/-- Result of enqueue_request: either the raised queue-full Exception or the
entry that was appended. -/
inductive EnqueueOutcome where
  | rejected (message : String)
  | enqueued (request : QueuedRequest)
deriving Repr, DecidableEq

def EnqueueOutcome.isRejected : EnqueueOutcome → Bool
  | .rejected _ => true
  | .enqueued _ => false

/-- RateLimitedQueue.enqueue_request, the part executed under queue_lock.
If the queue is full it bumps total_rejected and raises without touching the
queue; otherwise it appends the entry, bumps total_enqueued and the size
stats. `now` stands for time.time() at the call. -/
def RateLimitedQueue.enqueue_request (q : RateLimitedQueue) (now : Int)
    (request_id system_prompt user_message : String) : EnqueueOutcome × RateLimitedQueue :=
  let enqueue_time := now
  let timeout_time := enqueue_time + (q.timeout_seconds : Int)
  let current_size := q.request_queue.length
  if current_size ≥ q.max_queue_size then
    (EnqueueOutcome.rejected "Rate limit queue full. Please try again later.",
     { q with stats := { q.stats with total_rejected := q.stats.total_rejected + 1 } })
  else
    let request : QueuedRequest :=
      ⟨request_id, system_prompt, user_message, enqueue_time, timeout_time⟩
    let queue2 := q.request_queue ++ [request]
    let queue_size_after := queue2.length
    (EnqueueOutcome.enqueued request,
     { q with
        request_queue := queue2
        stats := { q.stats with
          total_enqueued := q.stats.total_enqueued + 1
          current_queue_size := queue_size_after
          max_queue_size_reached := max q.stats.max_queue_size_reached queue_size_after } })

/-- The head-drain loop of _queue_processor: pop expired entries
(current_time > timeout_time) from the head; the first non-expired head, if
any, is popped to be released. Returns (expired, released, remaining). -/
def drainQueue (now : Int) : List QueuedRequest →
    List QueuedRequest × Option QueuedRequest × List QueuedRequest
  | [] => ([], none, [])
  | request :: rest =>
    if now > request.timeout_time then
      let d := drainQueue now rest
      (request :: d.1, d.2.1, d.2.2)
    else
      ([], some request, rest)

/-- One iteration of the _queue_processor loop body (between two sleeps of
release_interval). Runs only while is_running. Each expired pop bumps
total_timeout and refreshes current_queue_size; the single released pop bumps
total_processed and refreshes current_queue_size. Returns the expired
entries, the released entry and the new state. -/
def RateLimitedQueue.processor_iteration (q : RateLimitedQueue) (now : Int) :
    List QueuedRequest × Option QueuedRequest × RateLimitedQueue :=
  if q.is_running then
    match q.request_queue with
    | [] => ([], none, q)
    | _ :: _ =>
      let d := drainQueue now q.request_queue
      (d.1, d.2.1,
       { q with
          request_queue := d.2.2
          stats := { q.stats with
            total_timeout := q.stats.total_timeout + d.1.length
            total_processed := q.stats.total_processed +
              (match d.2.1 with | some _ => 1 | none => 0)
            current_queue_size := d.2.2.length } })
  else ([], none, q)

/-- RateLimitedQueue.start_processor: idempotent start. -/
def RateLimitedQueue.start_processor (q : RateLimitedQueue) : RateLimitedQueue :=
  if q.is_running then q else { q with is_running := true }

/-- RateLimitedQueue.stop_processor: clears is_running, then pops every
remaining entry marking it TimeoutError("System shutdown") and bumping
total_timeout. Mirrors the source in NOT refreshing the current_queue_size
stat during this drain. Returns the drained entries. -/
def RateLimitedQueue.stop_processor (q : RateLimitedQueue) :
    List QueuedRequest × RateLimitedQueue :=
  (q.request_queue,
   { q with
      is_running := false
      request_queue := []
      stats := { q.stats with
        total_timeout := q.stats.total_timeout + q.request_queue.length } })

/-! ### Trace semantics for the queue

All mutations of the deque and the stats happen inside the queue lock, so an
interleaving of callers and the processor is a sequence of these atomic
steps. -/

/-- An observable atomic step on a RateLimitedQueue. -/
inductive QueueEvent where
  | enqueue (now : Int) (request_id system_prompt user_message : String)
  | iteration (now : Int)
  | start
  | stop
deriving Repr, DecidableEq

/-- How a pending entry left the queue. -/
inductive PopKind where
  | released
  | expired
deriving Repr, DecidableEq

def PopKind.isReleased : PopKind → Bool
  | .released => true
  | .expired => false

def PopKind.isExpired : PopKind → Bool
  | .released => false
  | .expired => true

/-- A queue state together with the logs of what was observed so far:
accepted admissions in order, pops (release or expiry) in order, and
rejected admissions in order. -/
structure QueueTrace where
  state : RateLimitedQueue
  admitted : List String
  pops : List (String × PopKind)
  rejected : List String
deriving Repr, DecidableEq

def stepEvent (t : QueueTrace) : QueueEvent → QueueTrace
  | .enqueue now rid sp um =>
    let res := t.state.enqueue_request now rid sp um
    if res.1.isRejected then
      { t with state := res.2, rejected := t.rejected ++ [rid] }
    else
      { t with state := res.2, admitted := t.admitted ++ [rid] }
  | .iteration now =>
    let d := t.state.processor_iteration now
    { t with
        state := d.2.2
        pops := t.pops ++ d.1.map (fun r => (r.request_id, PopKind.expired)) ++
          d.2.1.toList.map (fun r => (r.request_id, PopKind.released)) }
  | .start => { t with state := t.state.start_processor }
  | .stop =>
    let d := t.state.stop_processor
    { t with
        state := d.2
        pops := t.pops ++ d.1.map (fun r => (r.request_id, PopKind.expired)) }

def initialTrace (rpm max_queue_size timeout_seconds : Nat) : QueueTrace :=
  ⟨RateLimitedQueue.init rpm max_queue_size timeout_seconds, [], [], []⟩

def runEvents (rpm max_queue_size timeout_seconds : Nat) (events : List QueueEvent) :
    QueueTrace :=
  events.foldl stepEvent (initialTrace rpm max_queue_size timeout_seconds)

/-- Release order extracted from the pop log. -/
def QueueTrace.released_order (t : QueueTrace) : List String :=
  (t.pops.filter (fun p => p.2.isReleased)).map Prod.fst

/-- The accounting invariant the trace semantics maintains: the stats
counters agree with the logs, and accepted admissions are exactly the pops
followed by the still-queued entries, in order. -/
def TraceInv (t : QueueTrace) : Prop :=
  t.state.stats.total_enqueued = t.admitted.length ∧
  t.state.stats.total_rejected = t.rejected.length ∧
  t.state.stats.total_processed = (t.pops.filter (fun p => p.2.isReleased)).length ∧
  t.state.stats.total_timeout = (t.pops.filter (fun p => p.2.isExpired)).length ∧
  t.state.stats.total_enqueued = t.state.stats.total_processed +
    t.state.stats.total_timeout + t.state.request_queue.length ∧
  t.admitted = t.pops.map Prod.fst ++ t.state.request_queue.map QueuedRequest.request_id

/-! ## AIServiceManager (src/agents/runner.py) -/

/-- An OpenAI client, modelled by the api key it was constructed from. -/
abbrev ApiClient := String

/-- State of AIServiceManager. The three index lists (chat_priority_indices,
shared_indices, memory_priority_indices) are set in __init__ and never
reassigned, so they are module constants below. -/
structure AIServiceManager where
  main_api_key : Option String
  backup_api_key : Option String
  main_client : Option ApiClient
  backup_client : Option ApiClient
  global_request_counter : Nat
  api_keys : List String
  chat_index : Nat
  shared_index : Nat
  memory_index : Nat
deriving Repr, DecidableEq

def chat_priority_indices : List Nat := [0, 1, 2]
def shared_indices : List Nat := [1, 2, 3]
def memory_priority_indices : List Nat := [3, 4]

/-- AIServiceManager.__init__: reads the credentials from the environment.
Missing MAIN_API_KEY / BACKUP_API_KEY / OPENAI_API_KEY_1-5 each produce a
logger warning (collected in the returned list) and a None client; nothing
raises, hence the Except value is always ok. -/
def AIServiceManager.init (env : String → Option String) :
    Except String (AIServiceManager × List String) :=
  let main_api_key := env "MAIN_API_KEY"
  let backup_api_key := env "BACKUP_API_KEY"
  let mainPair : Option ApiClient × List String :=
    match main_api_key with
    | some k => (some k, [])
    | none => (none, ["MAIN_API_KEY not configured, evaluation will use fallback"])
  let backupPair : Option ApiClient × List String :=
    match backup_api_key with
    | some k => (some k, [])
    | none => (none, ["BACKUP_API_KEY not configured"])
  let api_keys :=
    ([env "OPENAI_API_KEY_1", env "OPENAI_API_KEY_2", env "OPENAI_API_KEY_3",
      env "OPENAI_API_KEY_4", env "OPENAI_API_KEY_5"]).filterMap id
  let keysWarning : List String :=
    if api_keys.isEmpty then ["No OPENAI_API_KEY_1-5 found, chat/memory will be limited"] else []
  Except.ok
    ({ main_api_key := main_api_key
       backup_api_key := backup_api_key
       main_client := mainPair.1
       backup_client := backupPair.1
       global_request_counter := 0
       api_keys := api_keys
       chat_index := 0
       shared_index := 0
       memory_index := 0 },
     mainPair.2 ++ backupPair.2 ++ keysWarning)

/-- The api_type tag returned by get_api_for_next_request. -/
inductive ApiType where
  | main
  | backup
  | main_fallback
deriving Repr, DecidableEq

/-- AIServiceManager.get_api_for_next_request: atomically increment the
global counter, read the new value, and pick the credential from
newValue mod 6. Position 0 prefers BACKUP, falling back to
("main_fallback", main_client-or-None) when backup is unconfigured; other
positions use MAIN and raise ValueError when it is unconfigured. -/
def AIServiceManager.get_api_for_next_request (s : AIServiceManager) :
    Except String ((ApiType × Option ApiClient) × AIServiceManager) :=
  let current_count := s.global_request_counter + 1
  let s2 := { s with global_request_counter := current_count }
  let position_in_cycle := current_count % 6
  if position_in_cycle = 0 then
    match s2.backup_client with
    | some c => Except.ok ((ApiType.backup, some c), s2)
    | none => Except.ok ((ApiType.main_fallback, s2.main_client), s2)
  else
    match s2.main_client with
    | some c => Except.ok ((ApiType.main, some c), s2)
    | none =>
      Except.error "No evaluation API keys configured (MAIN_API_KEY or BACKUP_API_KEY)"

/-- Repeated credential selection: the tags of n consecutive calls and the
final state. Stops early if a call raises. -/
def selectionTags : Nat → AIServiceManager → List ApiType × AIServiceManager
  | 0, s => ([], s)
  | n + 1, s =>
    match s.get_api_for_next_request with
    | .ok ((t, _), s2) =>
      let rest := selectionTags n s2
      (t :: rest.1, rest.2)
    | .error _ => ([], s)

/-- A manager state as produced by init with MAIN_API_KEY = km and
BACKUP_API_KEY = kb configured and a cold distribution counter. -/
def freshManager (km kb : String) : AIServiceManager :=
  { main_api_key := some km
    backup_api_key := some kb
    main_client := some km
    backup_client := some kb
    global_request_counter := 0
    api_keys := []
    chat_index := 0
    shared_index := 0
    memory_index := 0 }

def exceptIsError {ε α : Type} : Except ε α → Bool
  | .error _ => true
  | .ok _ => false

/-! ### Embedding fallback (_call_with_fallback, generate_embedding) -/

/-- A value returned by one upstream call inside _call_with_fallback. -/
inductive CallResult where
  | text (content : String)
  | vec (embedding : List Float)

/-- The zero-vector fallback for embeddings: [0.0] * 1536. -/
def zero_embedding : List Float := List.replicate 1536 0.0

/-- The body of one loop step of _call_with_fallback: dispatch on the
operation string; a client failure or the ValueError raised for an unknown
operation is caught by the loop, which then continues. `chatCall` and
`embedCall` stand for the upstream HTTP calls with their kwargs applied,
including the extraction of .choices[0].message.content.strip() resp.
.data[0].embedding. -/
def tryClient (chatCall : ApiClient → Except Unit String)
    (embedCall : ApiClient → Except Unit (List Float))
    (operation : String) (client : ApiClient) : Except Unit CallResult :=
  if operation = "chat_completion" then (chatCall client).map CallResult.text
  else if operation = "embedding" then (embedCall client).map CallResult.vec
  else Except.error ()

/-- First client in the list whose call succeeds, if any. -/
def firstSuccess (f : ApiClient → Except Unit CallResult) :
    List ApiClient → Option CallResult
  | [] => none
  | c :: cs =>
    match f c with
    | .ok r => some r
    | .error _ => firstSuccess f cs

/-- AIServiceManager._call_with_fallback: try the priority clients in order,
then the fallback clients; when every attempt failed, return the legacy
error string for chat_completion, the zero vector for embedding, and raise
for an unknown operation. -/
def call_with_fallback (chatCall : ApiClient → Except Unit String)
    (embedCall : ApiClient → Except Unit (List Float))
    (priority_clients fallback_clients : List ApiClient) (operation : String) :
    Except String CallResult :=
  match firstSuccess (tryClient chatCall embedCall operation) priority_clients with
  | some r => Except.ok r
  | none =>
    match firstSuccess (tryClient chatCall embedCall operation) fallback_clients with
    | some r => Except.ok r
    | none =>
      if operation = "chat_completion" then
        Except.ok (CallResult.text "[OpenAI Error] All API keys failed for chat completion")
      else if operation = "embedding" then
        Except.ok (CallResult.vec zero_embedding)
      else Except.error ("All API keys failed for operation: " ++ operation)

/-- AIServiceManager._get_next_memory_client. Errors model the IndexError
raised when api_keys holds fewer keys than the priority index demands; the
error carries the state at the raise (the round-robin index has already
advanced). -/
def AIServiceManager.get_next_memory_client (s : AIServiceManager) :
    Except (String × AIServiceManager) (Option ApiClient × AIServiceManager) :=
  if memory_priority_indices.isEmpty then Except.ok (none, s)
  else
    match memory_priority_indices.get? s.memory_index with
    | none => Except.error ("IndexError: list index out of range", s)
    | some key_index =>
      let s2 := { s with memory_index := (s.memory_index + 1) % memory_priority_indices.length }
      match s.api_keys.get? key_index with
      | none => Except.error ("IndexError: list index out of range", s2)
      | some key => Except.ok (some key, s2)

/-- AIServiceManager._get_next_shared_client, same shape as the memory
getter but over shared_indices / shared_index. -/
def AIServiceManager.get_next_shared_client (s : AIServiceManager) :
    Except (String × AIServiceManager) (Option ApiClient × AIServiceManager) :=
  if shared_indices.isEmpty then Except.ok (none, s)
  else
    match shared_indices.get? s.shared_index with
    | none => Except.error ("IndexError: list index out of range", s)
    | some key_index =>
      let s2 := { s with shared_index := (s.shared_index + 1) % shared_indices.length }
      match s.api_keys.get? key_index with
      | none => Except.error ("IndexError: list index out of range", s2)
      | some key => Except.ok (some key, s2)

/-- The client-gathering loop `for _ in range(n): client := getter(); if
client: clients.append(client)` with exceptions propagating. -/
def gatherClients
    (getter : AIServiceManager → Except (String × AIServiceManager) (Option ApiClient × AIServiceManager)) :
    Nat → AIServiceManager → List ApiClient →
    Except (String × AIServiceManager) (List ApiClient × AIServiceManager)
  | 0, s, acc => Except.ok (acc, s)
  | n + 1, s, acc =>
    match getter s with
    | .error e => Except.error e
    | .ok (none, s2) => gatherClients getter n s2 acc
    | .ok (some c, s2) => gatherClients getter n s2 (acc ++ [c])

/-- AIServiceManager.generate_embedding: gather priority clients from the
memory keys and fallback clients from the shared keys, then run
_call_with_fallback with operation "embedding"; the enclosing try/except
turns any escaped exception into the zero-vector fallback. `embedRaw`
stands for client.embeddings.create(model=..., input=text) plus the
.data[0].embedding extraction. -/
def AIServiceManager.generate_embedding
    (embedRaw : ApiClient → String → Except Unit (List Float))
    (chatCall : ApiClient → Except Unit String)
    (s : AIServiceManager) (text : String) : CallResult × AIServiceManager :=
  match gatherClients AIServiceManager.get_next_memory_client
      memory_priority_indices.length s [] with
  | .error e => (CallResult.vec zero_embedding, e.2)
  | .ok (priority_clients, s1) =>
    match gatherClients AIServiceManager.get_next_shared_client
        shared_indices.length s1 [] with
    | .error e => (CallResult.vec zero_embedding, e.2)
    | .ok (fallback_clients, s2) =>
      match call_with_fallback chatCall (fun c => embedRaw c text)
          priority_clients fallback_clients "embedding" with
      | .ok r => (r, s2)
      | .error _ => (CallResult.vec zero_embedding, s2)

/-! ## Conversation store and per-user history
(src/agents/database.py, src/agents/agents_backend.py) -/

/-- A value stored in one of the dictionaries built by the database layer. -/
inductive DbValue where
  | int (n : Nat)
  | str (s : String)
  | time (t : Int)
deriving Repr, DecidableEq

/-- A row of the conversation table (class Conversation). -/
structure ConversationRow where
  conversation_id : Nat
  user_id : Nat
  message_type : String
  content : String
  timestamp : Int
  role : String
  mode : String
deriving Repr, DecidableEq

/-- The dictionary DatabaseManager.get_user_conversations builds per row:
it carries conversation_id, content, message_type and timestamp only — the
role column is NOT copied into the dictionary. -/
def conversationDict (conv : ConversationRow) : List (String × DbValue) :=
  [("conversation_id", DbValue.int conv.conversation_id),
   ("content", DbValue.str conv.content),
   ("message_type", DbValue.str conv.message_type),
   ("timestamp", DbValue.time conv.timestamp)]

/-- Python dictionary lookup d[key] as an Option. -/
def dictGet (d : List (String × DbValue)) (key : String) : Option DbValue :=
  (d.find? (fun kv => kv.1 == key)).map Prod.snd

/-- Insertion step for ORDER BY timestamp ASC. -/
def insertByTimestamp (r : ConversationRow) :
    List ConversationRow → List ConversationRow
  | [] => [r]
  | x :: xs =>
    if r.timestamp < x.timestamp then r :: x :: xs else x :: insertByTimestamp r xs

/-- Rows sorted by ascending timestamp. -/
def orderByTimestampAsc (rows : List ConversationRow) : List ConversationRow :=
  rows.foldr insertByTimestamp []

/-- DatabaseManager.get_user_conversations: filter the table by user_id,
ORDER BY timestamp ASC, LIMIT `limit` — i.e. the EARLIEST `limit` rows in
oldest-first order — and build the four-field dictionaries. -/
def get_user_conversations (db : List ConversationRow) (user_id limit : Nat) :
    List (List (String × DbValue)) :=
  ((orderByTimestampAsc (db.filter (fun r => r.user_id == user_id))).take limit).map
    conversationDict

/-- The MAX_ROUNDS class constant of UserHistoryManager. -/
def MAX_ROUNDS : Nat := 3

/-- State of agents_backend.UserHistoryManager. `hydrated` models the
source field `_initialized`. -/
structure UserHistoryManager where
  user_id : Nat
  history : List (String × String)
  hydrated : Bool
deriving Repr, DecidableEq

/-- The tuple construction `(c[role-key], c[content-key])` in
UserHistoryManager.ensure_initialized: a missing key raises KeyError. -/
def rowToPair (c : List (String × DbValue)) : Except String (String × String) :=
  match dictGet c "role", dictGet c "content" with
  | none, _ => Except.error "KeyError: role"
  | some _, none => Except.error "KeyError: content"
  | some (DbValue.str r), some (DbValue.str w) => Except.ok (r, w)
  | _, _ => Except.error "TypeError"

/-- UserHistoryManager.ensure_initialized: on first access fetch
get_user_conversations(user_id, limit = MAX_ROUNDS * 2), reverse the list,
convert each dictionary to a (role, content) pair, mark hydrated. Later
accesses return unchanged without a fetch. -/
def ensure_hydrated (db : List ConversationRow) (m : UserHistoryManager) :
    Except String UserHistoryManager :=
  if m.hydrated then Except.ok m
  else do
    let conversations := get_user_conversations db m.user_id (MAX_ROUNDS * 2)
    let conversations := conversations.reverse
    let history ← conversations.mapM rowToPair
    Except.ok { m with history := history, hydrated := true }

/-- UserHistoryManager.add_message: append and keep only the most recent
MAX_ROUNDS * 2 messages. -/
def add_message (m : UserHistoryManager) (role content : String) : UserHistoryManager :=
  let h := m.history ++ [(role, content)]
  let h := if h.length > MAX_ROUNDS * 2 then h.drop (h.length - MAX_ROUNDS * 2) else h
  { m with history := h }

/-! ## Agent runner (agents_backend.run_agent / run_agent_stream) -/

/-- The external collaborators of the two agent entry points:
memory_system.create_memory_context(user_id, user_message, top_k=3),
Runner.run(agent, prompt, model) and
ai_service_manager.run_agent_stream(agent, prompt, model). -/
structure AgentEnv where
  memory_context : Nat → String → String
  runner_reply : String → String
  stream_chunks : String → List String

/-- Prompt assembly shared by run_agent and run_agent_stream: the history
block and the memory block are emitted only when non-empty, then the
current user turn. -/
def buildAgentPrompt (history : List (String × String)) (memory_context : String)
    (user_message : String) : String :=
  let historyBlock :=
    if history.isEmpty then ""
    else "Recent conversation history:\n" ++
      String.join (history.map (fun rm => rm.1 ++ ": " ++ rm.2 ++ "\n")) ++ "\n"
  let memoryBlock :=
    if memory_context = "" then ""
    else "Previous relevant context from our conversations:\n" ++ memory_context ++ "\n\n"
  historyBlock ++ memoryBlock ++ "User: " ++ user_message ++ "\nAssistant:"

/-- agents_backend.run_agent. The Bool in the result records whether
memory_system.create_memory_context was invoked; in this function the source
invokes it UNCONDITIONALLY (the mode argument is never consulted). When
historyArg is none the per-user registry entry is hydrated, read, and
appended to; when a history is supplied the registry is untouched. -/
def run_agent (env : AgentEnv) (db : List ConversationRow)
    (managerOpt : Option UserHistoryManager) (user_id : Nat) (user_message : String)
    (historyArg : Option (List (String × String))) (mode : String) :
    Except String (String × Bool × Option UserHistoryManager) :=
  match historyArg with
  | some history =>
    let memory_context := env.memory_context user_id user_message
    let prompt := buildAgentPrompt history memory_context user_message
    let assistant_reply := env.runner_reply prompt
    Except.ok (assistant_reply.trim, true, managerOpt)
  | none => do
    let m ← ensure_hydrated db (managerOpt.getD ⟨user_id, [], false⟩)
    let history := m.history
    let memory_context := env.memory_context user_id user_message
    let prompt := buildAgentPrompt history memory_context user_message
    let assistant_reply := env.runner_reply prompt
    let m1 := add_message m "User" user_message
    let m2 := add_message m1 "Assistant" assistant_reply.trim
    Except.ok (assistant_reply.trim, true, some m2)

/-- agents_backend.run_agent_stream. Identical flow, except that the memory
context is fetched only when mode == "chat" (the Bool in the result records
whether the fetch happened), and the reply is a list of chunks whose
concatenation is appended to the history. -/
def run_agent_stream (env : AgentEnv) (db : List ConversationRow)
    (managerOpt : Option UserHistoryManager) (user_id : Nat) (user_message : String)
    (historyArg : Option (List (String × String))) (mode : String) :
    Except String (List String × Bool × Option UserHistoryManager) :=
  match historyArg with
  | some history =>
    let memory_context := if mode = "chat" then env.memory_context user_id user_message else ""
    let prompt := buildAgentPrompt history memory_context user_message
    let chunks := env.stream_chunks prompt
    Except.ok (chunks, decide (mode = "chat"), managerOpt)
  | none => do
    let m ← ensure_hydrated db (managerOpt.getD ⟨user_id, [], false⟩)
    let history := m.history
    let memory_context := if mode = "chat" then env.memory_context user_id user_message else ""
    let prompt := buildAgentPrompt history memory_context user_message
    let chunks := env.stream_chunks prompt
    let full_response := String.join chunks
    let m1 := add_message m "User" user_message
    let m2 := add_message m1 "Assistant" full_response.trim
    Except.ok (chunks, decide (mode = "chat"), some m2)

/-- A fixed instantiation of the external collaborators, used for concrete
evaluations. -/
def sampleAgentEnv : AgentEnv :=
  { memory_context := fun _ _ => "remembered context"
    runner_reply := fun _ => "reply"
    stream_chunks := fun _ => ["re", "ply"] }

/-- A conversation-table row of the sample store: row i has timestamp i. -/
def sampleRow (i : Nat) : ConversationRow :=
  { conversation_id := i
    user_id := 1
    message_type := if i % 2 = 1 then "user_input" else "agent_response"
    content := "m" ++ toString i
    timestamp := (i : Int)
    role := if i % 2 = 1 then "user" else "assistant"
    mode := "chat" }

/-- A sample store: user 1 has eight persisted messages m1..m8. -/
def sampleDb : List ConversationRow := (List.range 8).map (fun i => sampleRow (i + 1))

/-! ## Theorems -/

/-! ### Helper lemmas about the release-engine drain -/

theorem drainQueue_expired_gt (now : Int) :
    ∀ l : List QueuedRequest, ∀ r ∈ (drainQueue now l).1, now > r.timeout_time := by
  intro l
  induction l with
  | nil => intro r hr; simp [drainQueue] at hr
  | cons a l ih =>
    intro r hr
    by_cases ha : now > a.timeout_time
    · simp only [drainQueue, if_pos ha] at hr
      rcases List.mem_cons.mp hr with rfl | hr2
      · exact ha
      · exact ih r hr2
    · simp [drainQueue, if_neg ha] at hr

theorem drainQueue_released_fresh (now : Int) :
    ∀ l : List QueuedRequest, ∀ r, (drainQueue now l).2.1 = some r →
      ¬ now > r.timeout_time := by
  intro l
  induction l with
  | nil => intro r hr; simp [drainQueue] at hr
  | cons a l ih =>
    intro r hr
    by_cases ha : now > a.timeout_time
    · simp only [drainQueue, if_pos ha] at hr
      exact ih r hr
    · simp only [drainQueue, if_neg ha, Option.some.injEq] at hr
      exact hr ▸ ha

theorem drainQueue_decomp (now : Int) :
    ∀ l : List QueuedRequest,
      l = (drainQueue now l).1 ++ (drainQueue now l).2.1.toList ++ (drainQueue now l).2.2 := by
  intro l
  induction l with
  | nil => rfl
  | cons a l ih =>
    by_cases ha : now > a.timeout_time
    · simp only [drainQueue, if_pos ha, List.cons_append]
      exact congrArg (a :: ·) ih
    · simp [drainQueue, if_neg ha]

theorem filter_released_of_expired_pairs (l : List QueuedRequest) :
    (l.map (fun r => (r.request_id, PopKind.expired))).filter
      (fun p => p.2.isReleased) = [] := by
  induction l with
  | nil => rfl
  | cons a l ih => simpa [List.filter_cons, PopKind.isReleased] using ih

theorem filter_expired_of_expired_pairs (l : List QueuedRequest) :
    (l.map (fun r => (r.request_id, PopKind.expired))).filter
      (fun p => p.2.isExpired) = l.map (fun r => (r.request_id, PopKind.expired)) := by
  induction l with
  | nil => rfl
  | cons a l ih => simpa [List.filter_cons, PopKind.isExpired] using ih

theorem filter_released_of_released_pairs (l : List QueuedRequest) :
    (l.map (fun r => (r.request_id, PopKind.released))).filter
      (fun p => p.2.isReleased) = l.map (fun r => (r.request_id, PopKind.released)) := by
  induction l with
  | nil => rfl
  | cons a l ih => simpa [List.filter_cons, PopKind.isReleased] using ih

theorem filter_expired_of_released_pairs (l : List QueuedRequest) :
    (l.map (fun r => (r.request_id, PopKind.released))).filter
      (fun p => p.2.isExpired) = [] := by
  induction l with
  | nil => rfl
  | cons a l ih => simpa [List.filter_cons, PopKind.isExpired] using ih

theorem traceInv_step (t : QueueTrace) (e : QueueEvent) (h : TraceInv t) :
    TraceInv (stepEvent t e) := by
  obtain ⟨h1, h2, h3, h4, h5, h6⟩ := h
  cases e with
  | enqueue now rid sp um =>
    by_cases hlen : t.state.request_queue.length ≥ t.state.max_queue_size
    · simp only [stepEvent, RateLimitedQueue.enqueue_request, if_pos hlen,
        EnqueueOutcome.isRejected, if_true]
      refine ⟨h1, ?_, h3, h4, h5, h6⟩
      simp [h2]
    · simp only [stepEvent, RateLimitedQueue.enqueue_request, if_neg hlen,
        EnqueueOutcome.isRejected, Bool.false_eq_true, if_false]
      refine ⟨?_, h2, h3, h4, ?_, ?_⟩
      · simp [h1]
      · simp only [List.length_append, List.length_cons, List.length_nil]
        omega
      · rw [h6]
        simp [List.map_append, List.append_assoc]
  | iteration now =>
    cases hrun : t.state.is_running with
    | false =>
      simp only [stepEvent, RateLimitedQueue.processor_iteration, hrun,
        Bool.false_eq_true, if_false, List.map_nil, Option.toList_none, List.append_nil]
      exact ⟨h1, h2, h3, h4, h5, h6⟩
    | true =>
      cases hq : t.state.request_queue with
      | nil =>
        simp only [stepEvent, RateLimitedQueue.processor_iteration, hrun, if_true, hq,
          List.map_nil, Option.toList_none, List.append_nil]
        exact ⟨h1, h2, h3, h4, h5, by rw [h6, hq]⟩
      | cons a rest =>
        have hdec := drainQueue_decomp now t.state.request_queue
        rcases hrel : (drainQueue now t.state.request_queue).2.1 with _ | r
        · have hlen2 : t.state.request_queue.length =
              (drainQueue now t.state.request_queue).1.length +
              (drainQueue now t.state.request_queue).2.2.length := by
            conv_lhs => rw [hdec]
            rw [hrel]
            simp [List.length_append]
          simp only [stepEvent, RateLimitedQueue.processor_iteration, hrun, if_true, hq]
          rw [← hq]
          simp only [hrel, Option.toList_none, List.map_nil, List.append_nil]
          refine ⟨h1, h2, ?_, ?_, ?_, ?_⟩
          · rw [List.filter_append, filter_released_of_expired_pairs]
            simp [h3]
          · rw [List.filter_append, filter_expired_of_expired_pairs]
            simp [h4, List.length_append]
          · dsimp only
            rw [h5, hlen2]
            omega
          · rw [h6]
            conv_lhs => rw [hdec, hrel]
            simp [List.map_append, List.map_map, List.append_assoc, Function.comp]
        · have hlen2 : t.state.request_queue.length =
              (drainQueue now t.state.request_queue).1.length + 1 +
              (drainQueue now t.state.request_queue).2.2.length := by
            conv_lhs => rw [hdec]
            rw [hrel]
            simp [List.length_append]
            omega
          simp only [stepEvent, RateLimitedQueue.processor_iteration, hrun, if_true, hq]
          rw [← hq]
          simp only [hrel, Option.toList_some, List.map_cons, List.map_nil]
          refine ⟨h1, h2, ?_, ?_, ?_, ?_⟩
          · rw [List.filter_append, List.filter_append, filter_released_of_expired_pairs]
            simp [h3, PopKind.isReleased, List.filter_cons]
          · rw [List.filter_append, List.filter_append, filter_expired_of_expired_pairs]
            simp [h4, PopKind.isExpired, List.filter_cons, List.length_append]
          · dsimp only
            rw [h5, hlen2]
            omega
          · rw [h6]
            conv_lhs => rw [hdec, hrel]
            simp [List.map_append, List.map_map, List.append_assoc, Function.comp]
  | start =>
    by_cases hrun : t.state.is_running
    · simp only [stepEvent, RateLimitedQueue.start_processor, if_pos hrun]
      exact ⟨h1, h2, h3, h4, h5, h6⟩
    · simp only [stepEvent, RateLimitedQueue.start_processor, if_neg hrun]
      exact ⟨h1, h2, h3, h4, h5, h6⟩
  | stop =>
    simp only [stepEvent, RateLimitedQueue.stop_processor]
    refine ⟨h1, h2, ?_, ?_, ?_, ?_⟩
    · rw [List.filter_append, filter_released_of_expired_pairs]
      simp [h3]
    · rw [List.filter_append, filter_expired_of_expired_pairs]
      simp [h4, List.length_append]
    · dsimp only
      rw [h5]
      simp only [List.length_nil]
      omega
    · rw [h6]
      simp [List.map_append, List.map_map, Function.comp]

theorem traceInv_foldl :
    ∀ (events : List QueueEvent) (t : QueueTrace), TraceInv t →
      TraceInv (events.foldl stepEvent t) := by
  intro events
  induction events with
  | nil => intro t ht; exact ht
  | cons e es ih => intro t ht; exact ih (stepEvent t e) (traceInv_step t e ht)

theorem traceInv_runEvents (rpm cap ts : Nat) (events : List QueueEvent) :
    TraceInv (runEvents rpm cap ts events) :=
  traceInv_foldl events (initialTrace rpm cap ts) ⟨rfl, rfl, rfl, rfl, rfl, rfl⟩

/-- Claim C3, counterexample: the equation claimed over the code counters
(total_enqueued = total_processed + total_rejected + total_timeout + queue
depth) already fails after a single rejected admission, because
enqueue_request bumps total_rejected WITHOUT bumping total_enqueued (see the
rejection_rate formula in get_stats, which divides by total_enqueued +
total_rejected). Concretely: one admission against a capacity-0 queue. -/
theorem c3_counterexample :
    ¬ ((runEvents 60 0 240 [QueueEvent.enqueue 0 "r1" "s" "u"]).state.stats.total_enqueued =
        (runEvents 60 0 240 [QueueEvent.enqueue 0 "r1" "s" "u"]).state.stats.total_processed +
        (runEvents 60 0 240 [QueueEvent.enqueue 0 "r1" "s" "u"]).state.stats.total_rejected +
        (runEvents 60 0 240 [QueueEvent.enqueue 0 "r1" "s" "u"]).state.stats.total_timeout +
        (runEvents 60 0 240 [QueueEvent.enqueue 0 "r1" "s" "u"]).state.request_queue.length) := by
  decide

/-- Claim C3, amended: at every observation point of any interleaving of
admissions, release-engine iterations, start and stop, the counters satisfy
total_enqueued = total_processed + total_timeout + current queue depth, with
total_rejected counting capacity rejections separately (rejected admissions
are not counted in total_enqueued); total_processed counts releases,
total_timeout counts expiries (queue or shutdown), total_enqueued counts
accepted admissions. -/
theorem c3_amended_invariant (rpm cap ts : Nat) (events : List QueueEvent) :
    (runEvents rpm cap ts events).state.stats.total_enqueued =
      (runEvents rpm cap ts events).state.stats.total_processed +
      (runEvents rpm cap ts events).state.stats.total_timeout +
      (runEvents rpm cap ts events).state.request_queue.length ∧
    (runEvents rpm cap ts events).state.stats.total_enqueued =
      (runEvents rpm cap ts events).admitted.length ∧
    (runEvents rpm cap ts events).state.stats.total_rejected =
      (runEvents rpm cap ts events).rejected.length ∧
    (runEvents rpm cap ts events).state.stats.total_processed =
      ((runEvents rpm cap ts events).pops.filter (fun p => p.2.isReleased)).length ∧
    (runEvents rpm cap ts events).state.stats.total_timeout =
      ((runEvents rpm cap ts events).pops.filter (fun p => p.2.isExpired)).length := by
  obtain ⟨h1, h2, h3, h4, h5, h6⟩ := traceInv_runEvents rpm cap ts events
  exact ⟨h5, h1, h2, h3, h4⟩

theorem processor_iteration_processed_le (q : RateLimitedQueue) (now : Int) :
    (q.processor_iteration now).2.2.stats.total_processed ≤ q.stats.total_processed + 1 := by
  unfold RateLimitedQueue.processor_iteration
  by_cases hrun : q.is_running
  · rw [if_pos hrun]
    cases hq : q.request_queue with
    | nil => exact Nat.le_succ _
    | cons a rest =>
      cases hrel : (drainQueue now (a :: rest)).2.1 <;> simp [hrel] <;> omega
  · rw [if_neg hrun]
    exact Nat.le_succ _

/-- Claim C4: in one release-engine iteration, the drained prefix consists
exactly of the entries whose deadline has passed (now > timeout_time), the
released entry (if any) is not expired, the queue decomposes as
expired-prefix ++ released ++ remainder (so expired drains do not consume
the release slot even when they precede a fresh entry), total_processed
grows by at most one per iteration, and the sleep between iterations is
release_interval = 60 / rpm as set by __init__. -/
theorem c4_release_engine (now : Int) (q : RateLimitedQueue) (rpm cap ts : Nat) :
    (∀ r ∈ (drainQueue now q.request_queue).1, now > r.timeout_time) ∧
    (∀ r ∈ (drainQueue now q.request_queue).2.1.toList, ¬ now > r.timeout_time) ∧
    q.request_queue =
      (drainQueue now q.request_queue).1 ++ (drainQueue now q.request_queue).2.1.toList ++
      (drainQueue now q.request_queue).2.2 ∧
    (q.processor_iteration now).2.2.stats.total_processed ≤ q.stats.total_processed + 1 ∧
    (RateLimitedQueue.init rpm cap ts).release_interval = 60 / (rpm : Rat) := by
  refine ⟨drainQueue_expired_gt now q.request_queue, ?_,
    drainQueue_decomp now q.request_queue, processor_iteration_processed_le q now, rfl⟩
  intro r hr
  rcases hrel : (drainQueue now q.request_queue).2.1 with _ | r2
  · rw [hrel] at hr
    simp at hr
  · rw [hrel] at hr
    simp only [Option.toList_some, List.mem_singleton] at hr
    subst hr
    exact drainQueue_released_fresh now q.request_queue r hrel

/-- Claim C4, witness at a concrete instantiation. -/
theorem c4_release_engine_witness :
    (RateLimitedQueue.init 60 1000 240).release_interval = 60 / (60 : Rat) :=
  (c4_release_engine 5 (RateLimitedQueue.init 60 1000 240) 60 1000 240).2.2.2.2

/-- Claim C5: across any interleaving in which every pop was a release (no
expiry) and the queue has fully drained, the release order equals the
admission order — strict FIFO. -/
theorem c5_fifo (rpm cap ts : Nat) (events : List QueueEvent)
    (hall : ∀ p ∈ (runEvents rpm cap ts events).pops, p.2 = PopKind.released)
    (hempty : (runEvents rpm cap ts events).state.request_queue = []) :
    (runEvents rpm cap ts events).released_order = (runEvents rpm cap ts events).admitted := by
  obtain ⟨h1, h2, h3, h4, h5, h6⟩ := traceInv_runEvents rpm cap ts events
  have hfull : (runEvents rpm cap ts events).pops.filter (fun p => p.2.isReleased) =
      (runEvents rpm cap ts events).pops := by
    apply List.filter_eq_self.mpr
    intro p hp
    rw [hall p hp]
    rfl
  unfold QueueTrace.released_order
  rw [hfull, h6, hempty]
  simp

/-- Claim C5, witness: two admissions then two iterations; both released in
admission order. -/
theorem c5_fifo_witness :
    (runEvents 60 1000 240 [QueueEvent.start, QueueEvent.enqueue 0 "a" "s" "u",
      QueueEvent.enqueue 0 "b" "s" "u", QueueEvent.iteration 1,
      QueueEvent.iteration 2]).released_order =
    (runEvents 60 1000 240 [QueueEvent.start, QueueEvent.enqueue 0 "a" "s" "u",
      QueueEvent.enqueue 0 "b" "s" "u", QueueEvent.iteration 1,
      QueueEvent.iteration 2]).admitted :=
  c5_fifo 60 1000 240 _ (by decide) (by decide)

/-- Claim C6: an admission arriving while the queue holds max_queue_size
entries is rejected immediately — total_rejected is bumped, the queue and
every other counter are untouched, and no waiting is involved (the raise
happens before the caller ever awaits the future); an admission below
capacity appends the entry with deadline now + timeout_seconds and bumps
total_enqueued. -/
theorem c6_capacity_rejection (q : RateLimitedQueue) (now : Int) (rid sp um : String) :
    (q.request_queue.length = q.max_queue_size →
      (q.enqueue_request now rid sp um).1.isRejected = true ∧
      (q.enqueue_request now rid sp um).2.request_queue = q.request_queue ∧
      (q.enqueue_request now rid sp um).2.stats.total_rejected = q.stats.total_rejected + 1 ∧
      (q.enqueue_request now rid sp um).2.stats.total_enqueued = q.stats.total_enqueued ∧
      (q.enqueue_request now rid sp um).2.stats.total_processed = q.stats.total_processed ∧
      (q.enqueue_request now rid sp um).2.stats.total_timeout = q.stats.total_timeout ∧
      (q.enqueue_request now rid sp um).2.stats.current_queue_size =
        q.stats.current_queue_size) ∧
    (q.request_queue.length < q.max_queue_size →
      (q.enqueue_request now rid sp um).1.isRejected = false ∧
      (q.enqueue_request now rid sp um).2.request_queue =
        q.request_queue ++ [⟨rid, sp, um, now, now + (q.timeout_seconds : Int)⟩] ∧
      (q.enqueue_request now rid sp um).2.stats.total_enqueued =
        q.stats.total_enqueued + 1 ∧
      (q.enqueue_request now rid sp um).2.stats.total_rejected = q.stats.total_rejected) := by
  constructor
  · intro hfull
    have hge : q.request_queue.length ≥ q.max_queue_size := le_of_eq hfull.symm
    simp [RateLimitedQueue.enqueue_request, if_pos hge, EnqueueOutcome.isRejected]
  · intro hlt
    have hng : ¬ q.request_queue.length ≥ q.max_queue_size := not_le.mpr hlt
    simp [RateLimitedQueue.enqueue_request, if_neg hng, EnqueueOutcome.isRejected]

/-- Claim C6, witness: a full (capacity 0) queue rejects, a capacity-3 queue
accepts. -/
theorem c6_capacity_rejection_witness :
    ((RateLimitedQueue.init 60 0 240).enqueue_request 0 "r1" "s" "u").1.isRejected = true ∧
    ((RateLimitedQueue.init 60 3 240).enqueue_request 0 "r1" "s" "u").1.isRejected = false :=
  ⟨((c6_capacity_rejection (RateLimitedQueue.init 60 0 240) 0 "r1" "s" "u").1 rfl).1,
   ((c6_capacity_rejection (RateLimitedQueue.init 60 3 240) 0 "r1" "s" "u").2 (by decide)).1⟩

/-- Claim C1, code bug, evaluated at a failing input (user 1 with eight
stored rows, timestamps 1..8). First access raises KeyError: the
dictionaries built by get_user_conversations carry no role key, although
ensure_initialized reads c[role-key]. Moreover the query orders by
timestamp ASCENDING with LIMIT 6, so it fetches the six OLDEST messages
(m1..m6, oldest-first) — not the newest-first recent turns the hydration
comment assumes ("Database returns newest first, reverse to oldest first"). -/
theorem c1_hydration_code_bug :
    ensure_hydrated sampleDb ⟨1, [], false⟩ = Except.error "KeyError: role" ∧
    (get_user_conversations sampleDb 1 (MAX_ROUNDS * 2)).map (fun d => dictGet d "content") =
      [some (DbValue.str "m1"), some (DbValue.str "m2"), some (DbValue.str "m3"),
       some (DbValue.str "m4"), some (DbValue.str "m5"), some (DbValue.str "m6")] := by
  exact ⟨rfl, rfl⟩

/-- Claim C7, counterexample: run_agent retrieves memory context even in
eval mode. At a concrete input with mode = "eval" and caller-supplied
history, the retrieved-memory flag of run_agent is true although
"eval" is not "chat" — the source calls create_memory_context
unconditionally in run_agent. -/
theorem c7_counterexample :
    (run_agent sampleAgentEnv [] none 7 "hello" (some [("User", "prev")]) "eval").map
      (fun r => r.2.1) = Except.ok true ∧ "eval" ≠ "chat" :=
  ⟨rfl, by decide⟩

/-- Claim C7, amended: in run_agent the memory-context retrieval is
unconditional — every successful invocation has retrieved memory context,
whatever the mode; only run_agent_stream gates the retrieval on
mode == "chat". -/
theorem c7_amended (env : AgentEnv) (db : List ConversationRow)
    (mOpt : Option UserHistoryManager) (uid : Nat) (msg : String)
    (historyArg : Option (List (String × String))) (mode : String) :
    (∀ r, run_agent env db mOpt uid msg historyArg mode = Except.ok r → r.2.1 = true) ∧
    (∀ r, run_agent_stream env db mOpt uid msg historyArg mode = Except.ok r →
      r.2.1 = decide (mode = "chat")) := by
  constructor
  · intro r hr
    cases historyArg with
    | some h =>
      simp only [run_agent] at hr
      cases hr
      rfl
    | none =>
      simp only [run_agent] at hr
      cases hm : ensure_hydrated db (mOpt.getD ⟨uid, [], false⟩) with
      | error e => rw [hm] at hr; simp [Bind.bind, Except.bind] at hr
      | ok m =>
        rw [hm] at hr
        simp only [Bind.bind, Except.bind, Except.ok.injEq] at hr
        rw [← hr]
  · intro r hr
    cases historyArg with
    | some h =>
      simp only [run_agent_stream] at hr
      cases hr
      rfl
    | none =>
      simp only [run_agent_stream] at hr
      cases hm : ensure_hydrated db (mOpt.getD ⟨uid, [], false⟩) with
      | error e => rw [hm] at hr; simp [Bind.bind, Except.bind] at hr
      | ok m =>
        rw [hm] at hr
        simp only [Bind.bind, Except.bind, Except.ok.injEq] at hr
        rw [← hr]

/-- Claim C7 amended, witness: a non-streaming eval-mode call still carries
the retrieved flag, and a streaming eval-mode call carries flag
decide("eval" = "chat") = false. -/
theorem c7_amended_witness :
    (("reply".trim, true, (none : Option UserHistoryManager)) :
        String × Bool × Option UserHistoryManager).2.1 = true ∧
    ((["re", "ply"], false, (none : Option UserHistoryManager)) :
        List String × Bool × Option UserHistoryManager).2.1 = decide ("eval" = "chat") :=
  ⟨(c7_amended sampleAgentEnv [] none 7 "hello" (some [("User", "prev")]) "eval").1
      ("reply".trim, true, none) rfl,
   (c7_amended sampleAgentEnv [] none 7 "hello" (some [("User", "prev")]) "eval").2
      (["re", "ply"], false, none) rfl⟩

theorem get_api_step (s : AIServiceManager) (km kb : ApiClient)
    (hm : s.main_client = some km) (hb : s.backup_client = some kb) :
    s.get_api_for_next_request =
      Except.ok
        ((if (s.global_request_counter + 1) % 6 = 0 then ApiType.backup else ApiType.main,
          some (if (s.global_request_counter + 1) % 6 = 0 then kb else km)),
         { s with global_request_counter := s.global_request_counter + 1 }) := by
  unfold AIServiceManager.get_api_for_next_request
  by_cases h6 : (s.global_request_counter + 1) % 6 = 0
  · rw [if_pos h6]
    simp [hb, h6]
  · rw [if_neg h6]
    simp [hm, h6]

theorem selectionTags_spec (km kb : ApiClient) :
    ∀ (n : Nat) (s : AIServiceManager),
      s.main_client = some km → s.backup_client = some kb →
      selectionTags n s =
        ((List.range n).map (fun i =>
            if (s.global_request_counter + i + 1) % 6 = 0 then ApiType.backup else ApiType.main),
         { s with global_request_counter := s.global_request_counter + n }) := by
  intro n
  induction n with
  | zero =>
    intro s hm hb
    simp [selectionTags]
  | succ n ih =>
    intro s hm hb
    have hih := ih { s with global_request_counter := s.global_request_counter + 1 } hm hb
    simp only [selectionTags, get_api_step s km kb hm hb, hih]
    rw [Prod.mk.injEq]
    constructor
    · rw [List.range_succ_eq_map, List.map_cons, List.map_map]
      congr 1
      apply List.map_congr_left
      intro i hi
      simp only [Function.comp]
      exact if_congr (by omega) rfl rfl
    · have harith : s.global_request_counter + 1 + n = s.global_request_counter + (n + 1) := by
        omega
      rw [harith]

/-- Claim C2: from a cold counter with MAIN and BACKUP configured, each
selection post-increments the counter exactly once (after N selections the
counter is N), selection k picks BACKUP exactly when k mod 6 = 0 and MAIN
otherwise, and 12 consecutive selections produce
[M,M,M,M,M,B,M,M,M,M,M,B]. -/
theorem c2_distribution (km kb : ApiClient) (N k : Nat) (h1 : 1 ≤ k) (h2 : k ≤ N) :
    (selectionTags N (freshManager km kb)).2.global_request_counter = N ∧
    (selectionTags N (freshManager km kb)).1.get? (k - 1) =
      some (if k % 6 = 0 then ApiType.backup else ApiType.main) ∧
    (selectionTags 12 (freshManager km kb)).1 =
      [ApiType.main, ApiType.main, ApiType.main, ApiType.main, ApiType.main, ApiType.backup,
       ApiType.main, ApiType.main, ApiType.main, ApiType.main, ApiType.main,
       ApiType.backup] := by
  have hspec := selectionTags_spec km kb N (freshManager km kb) rfl rfl
  have hspec12 := selectionTags_spec km kb 12 (freshManager km kb) rfl rfl
  refine ⟨?_, ?_, ?_⟩
  · rw [hspec]
    dsimp only [freshManager]
    omega
  · rw [hspec]
    dsimp only
    have hk : k - 1 < N := by omega
    rw [List.get?_map, List.get?_range hk]
    dsimp only [Option.map, freshManager]
    have harith : 0 + (k - 1) + 1 = k := by omega
    rw [harith]
  · rw [hspec12]
    dsimp only [freshManager]
    decide

/-- Claim C2, witness at N = 12, k = 6. -/
theorem c2_distribution_witness :
    (selectionTags 12 (freshManager "k1" "k2")).2.global_request_counter = 12 ∧
    (selectionTags 12 (freshManager "k1" "k2")).1.get? (6 - 1) =
      some (if 6 % 6 = 0 then ApiType.backup else ApiType.main) ∧
    (selectionTags 12 (freshManager "k1" "k2")).1 =
      [ApiType.main, ApiType.main, ApiType.main, ApiType.main, ApiType.main, ApiType.backup,
       ApiType.main, ApiType.main, ApiType.main, ApiType.main, ApiType.main,
       ApiType.backup] :=
  c2_distribution "k1" "k2" 12 6 (by decide) (by decide)

/-- Claim C10: when a selection lands on a BACKUP position (counter + 1
divisible by 6) and no backup client is configured, get_api_for_next_request
does not raise — it returns ("main_fallback", main_client-or-None); and it
raises (ValueError) exactly when a MAIN position is selected while no MAIN
client exists. -/
theorem c10_backup_fallback (s : AIServiceManager) :
    ((s.global_request_counter + 1) % 6 = 0 → s.backup_client = none →
      s.get_api_for_next_request =
        Except.ok ((ApiType.main_fallback, s.main_client),
          { s with global_request_counter := s.global_request_counter + 1 })) ∧
    (exceptIsError s.get_api_for_next_request = true ↔
      ((s.global_request_counter + 1) % 6 ≠ 0 ∧ s.main_client = none)) := by
  constructor
  · intro h6 hb
    unfold AIServiceManager.get_api_for_next_request
    rw [if_pos h6]
    simp [hb]
  · unfold AIServiceManager.get_api_for_next_request
    by_cases h6 : (s.global_request_counter + 1) % 6 = 0
    · rw [if_pos h6]
      cases hb : s.backup_client <;> simp [exceptIsError, h6]
    · rw [if_neg h6]
      cases hm : s.main_client <;> simp [exceptIsError, h6]

/-- Claim C10, witness: counter 5 selects position 0 with backup missing and
yields the main_fallback tag without raising. -/
theorem c10_backup_fallback_witness :
    ({ freshManager "k1" "k2" with
        backup_client := none
        global_request_counter := 5 } : AIServiceManager).get_api_for_next_request =
      Except.ok ((ApiType.main_fallback, some "k1"),
        { freshManager "k1" "k2" with
            backup_client := none
            global_request_counter := 6 }) :=
  (c10_backup_fallback _).1 (by decide) rfl

/-- Claim C8, counterexample: with every credential absent from the
environment, AIServiceManager.__init__ completes normally (no ConfigError,
no exception) — it merely logs three warnings and leaves both clients None.
The claimed fatal failure at init does not exist in the code. -/
theorem c8_counterexample :
    AIServiceManager.init (fun _ => none) =
      Except.ok
        ({ main_api_key := none
           backup_api_key := none
           main_client := none
           backup_client := none
           global_request_counter := 0
           api_keys := []
           chat_index := 0
           shared_index := 0
           memory_index := 0 },
         ["MAIN_API_KEY not configured, evaluation will use fallback",
          "BACKUP_API_KEY not configured",
          "No OPENAI_API_KEY_1-5 found, chat/memory will be limited"]) := rfl

/-- Claim C8, amended: initialization never fails on missing credentials.
For every environment it returns ok; each client is exactly the
corresponding env lookup; and the MAIN / BACKUP warning is emitted exactly
when the corresponding key is absent. A ValueError arises only later, at
selection time, when a MAIN position finds no MAIN client (see the C10
theorem). The code has no MEMORY_API_KEY at all: the memory side uses
OPENAI_API_KEY_1-5, whose absence is also only a warning. -/
theorem c8_amended (env : String → Option String) :
    ∃ s warnings, AIServiceManager.init env = Except.ok (s, warnings) ∧
      s.main_client = env "MAIN_API_KEY" ∧
      s.backup_client = env "BACKUP_API_KEY" ∧
      (env "MAIN_API_KEY" = none ↔
        "MAIN_API_KEY not configured, evaluation will use fallback" ∈ warnings) ∧
      (env "BACKUP_API_KEY" = none ↔ "BACKUP_API_KEY not configured" ∈ warnings) := by
  have hAB : ("MAIN_API_KEY not configured, evaluation will use fallback" : String) ≠
      "BACKUP_API_KEY not configured" := by decide
  have hAC : ("MAIN_API_KEY not configured, evaluation will use fallback" : String) ≠
      "No OPENAI_API_KEY_1-5 found, chat/memory will be limited" := by decide
  have hBC : ("BACKUP_API_KEY not configured" : String) ≠
      "No OPENAI_API_KEY_1-5 found, chat/memory will be limited" := by decide
  refine ⟨_, _, rfl, ?_, ?_, ?_, ?_⟩ <;>
    cases hm : env "MAIN_API_KEY" <;> cases hb : env "BACKUP_API_KEY" <;>
      by_cases hk :
        (([env "OPENAI_API_KEY_1", env "OPENAI_API_KEY_2", env "OPENAI_API_KEY_3",
           env "OPENAI_API_KEY_4", env "OPENAI_API_KEY_5"]).filterMap id).isEmpty <;>
        simp [AIServiceManager.init, hm, hb, hk, hAB, hAC, hBC]

/-- Claim C8 amended, witness at the empty environment. -/
theorem c8_amended_witness :
    ∃ s warnings, AIServiceManager.init (fun _ => none) = Except.ok (s, warnings) ∧
      s.main_client = (fun _ => (none : Option String)) "MAIN_API_KEY" ∧
      s.backup_client = (fun _ => (none : Option String)) "BACKUP_API_KEY" ∧
      ((fun _ => (none : Option String)) "MAIN_API_KEY" = none ↔
        "MAIN_API_KEY not configured, evaluation will use fallback" ∈ warnings) ∧
      ((fun _ => (none : Option String)) "BACKUP_API_KEY" = none ↔
        "BACKUP_API_KEY not configured" ∈ warnings) :=
  c8_amended (fun _ => none)

theorem firstSuccess_embedding_none (chatCall : ApiClient → Except Unit String)
    (embedCall : ApiClient → Except Unit (List Float))
    (h : ∀ c, embedCall c = Except.error ()) :
    ∀ l : List ApiClient, firstSuccess (tryClient chatCall embedCall "embedding") l = none := by
  intro l
  induction l with
  | nil => rfl
  | cons c cs ih =>
    have hc : tryClient chatCall embedCall "embedding" c = Except.error () := by
      unfold tryClient
      rw [if_neg (by decide), if_pos rfl, h c]
      rfl
    simp [firstSuccess, hc, ih]

theorem call_with_fallback_embedding_zero (chatCall : ApiClient → Except Unit String)
    (embedCall : ApiClient → Except Unit (List Float))
    (h : ∀ c, embedCall c = Except.error ())
    (priority_clients fallback_clients : List ApiClient) :
    call_with_fallback chatCall embedCall priority_clients fallback_clients "embedding" =
      Except.ok (CallResult.vec zero_embedding) := by
  have hne : ¬ (("embedding" : String) = "chat_completion") := by decide
  unfold call_with_fallback
  rw [firstSuccess_embedding_none chatCall embedCall h priority_clients,
    firstSuccess_embedding_none chatCall embedCall h fallback_clients]
  simp [hne]

/-- Claim C9: whenever every upstream embedding attempt fails — every client
call errors, including the case where gathering the clients itself raises
(too few api keys for the priority indices) — generate_embedding returns the
zero vector of exactly the configured dimension: 1536 entries, all 0.0. -/
theorem c9_embedding_fallback (embedRaw : ApiClient → String → Except Unit (List Float))
    (chatCall : ApiClient → Except Unit String) (s : AIServiceManager) (text : String)
    (hfail : ∀ c t, embedRaw c t = Except.error ()) :
    (AIServiceManager.generate_embedding embedRaw chatCall s text).1 =
      CallResult.vec (List.replicate 1536 0.0) := by
  unfold AIServiceManager.generate_embedding
  rcases h1 : gatherClients AIServiceManager.get_next_memory_client
      memory_priority_indices.length s [] with e | ⟨pc, s1⟩
  · simp only [h1]
    exact rfl
  · simp only [h1]
    rcases h2 : gatherClients AIServiceManager.get_next_shared_client
        shared_indices.length s1 [] with e2 | ⟨fc, s2⟩
    · simp only [h2]
      exact rfl
    · simp only [h2]
      have hcf := call_with_fallback_embedding_zero chatCall (fun c => embedRaw c text)
        (fun c => hfail c text) pc fc
      simp only [hcf]
      exact rfl

/-- Claim C9, witness: a concrete manager with an always-failing upstream
returns the 1536-entry zero vector. -/
theorem c9_embedding_fallback_witness :
    (AIServiceManager.generate_embedding (fun _ _ => Except.error ())
      (fun _ => Except.error ()) (freshManager "k1" "k2") "hello").1 =
      CallResult.vec (List.replicate 1536 0.0) :=
  c9_embedding_fallback (fun _ _ => Except.error ()) (fun _ => Except.error ())
    (freshManager "k1" "k2") "hello" (fun _ _ => rfl)

/-- Claim C3 amended, witness: the amended equation holds at the very input
on which the original equation fails. -/
theorem c3_amended_invariant_witness :
    (runEvents 60 0 240 [QueueEvent.enqueue 0 "r1" "s" "u"]).state.stats.total_enqueued =
      (runEvents 60 0 240 [QueueEvent.enqueue 0 "r1" "s" "u"]).state.stats.total_processed +
      (runEvents 60 0 240 [QueueEvent.enqueue 0 "r1" "s" "u"]).state.stats.total_timeout +
      (runEvents 60 0 240 [QueueEvent.enqueue 0 "r1" "s" "u"]).state.request_queue.length :=
  (c3_amended_invariant 60 0 240 [QueueEvent.enqueue 0 "r1" "s" "u"]).1
